import Mathlib

/-!
Verification development for the aztk node-data bundle builder and plugin
registry.  The definitions below are a shallow embedding of
`src/aztk/internal/cluster_data/node_data.py` (class `NodeData`) and
`src/aztk/plugins/internal/plugin_manager.py` (class `PluginManager`).
File contents are modelled as lists of characters, the archive as an ordered
list of (name, content) entries, and Python exceptions as an explicit error
type threaded through the stage functions.
-/

namespace Aztk

/-! ### String primitives and os.path helpers -/

/-- Whether `p` is a prefix of `s` (character-list computation). -/
def strStartsWith (s p : String) : Bool :=
  p.data.isPrefixOf s.data

/-- Whether `p` is a suffix of `s` (character-list computation). -/
def strEndsWith (s p : String) : Bool :=
  p.data.isSuffixOf s.data

/-- Drop the first `n` characters of `s`. -/
def strDrop (s : String) (n : Nat) : String :=
  ⟨s.data.drop n⟩

/-- Embedding of `os.path.join(a, b)` for two components: an empty first
component yields the second, an absolute second component replaces the first,
otherwise the parts are joined with a single slash. -/
def osPathJoin (a b : String) : String :=
  if a = "" then b
  else if strStartsWith b "/" then b
  else if strEndsWith a "/" then a ++ b
  else a ++ "/" ++ b

/-- Embedding of `os.path.basename` (and of `pathlib.Path(p).name` for the
plain relative and absolute paths used by the code): the part after the last
slash. -/
def basename (p : String) : String :=
  ⟨p.data.foldl (fun acc c => if c = '/' then [] else acc ++ [c]) []⟩

/-- Embedding of `os.path.abspath` relative to an explicit working directory
`cwd` (Python reads the process-wide cwd).  Path normalization of `.` and
`..` segments is not modelled; the paths used in this development contain
none. -/
def pyAbspath (cwd p : String) : String :=
  if strStartsWith p "/" then p else osPathJoin cwd p

/-! ### Line endings: text-mode reads and Python `s.replace(CRLF, LF)` -/

/-- Embedding of the universal-newlines translation Python applies when a
file is opened in text mode with the default `newline=None`, as every
`io.open(path, "r")` of this code does: on read, each CR LF pair and each
bare CR is translated to LF. -/
def universalNewlines : List Char → List Char
  | [] => []
  | [c] => if c = '\r' then ['\n'] else [c]
  | a :: b :: rest =>
    if a = '\r' then
      if b = '\n' then '\n' :: universalNewlines rest
      else '\n' :: universalNewlines (b :: rest)
    else a :: universalNewlines (b :: rest)

/-- Embedding of the Python expression `s.replace(CR LF, LF)`: a single
left-to-right pass replacing each non-overlapping CR LF pair by LF. -/
def replaceCRLF : List Char → List Char
  | [] => []
  | [c] => [c]
  | a :: b :: rest =>
    if a = '\r' then
      if b = '\n' then '\n' :: replaceCRLF rest
      else a :: replaceCRLF (b :: rest)
    else a :: replaceCRLF (b :: rest)

/-- Whether a character list contains a CR LF pair. -/
def containsCRLF : List Char → Bool
  | [] => false
  | [_] => false
  | a :: b :: rest => (a = '\r' && b = '\n') || containsCRLF (b :: rest)

/-- Whether a character list contains a CR at all. -/
def containsCR : List Char → Bool
  | [] => false
  | c :: rest => c = '\r' || containsCR rest

/-- Embedding of a text-mode `io.open(path, "r").read()` of a file with raw
content `s`: the universal-newlines translation of `s`. -/
def pyTextRead (s : String) : String :=
  ⟨universalNewlines s.data⟩

/-- String form of `replaceCRLF`. -/
def pyReplaceCRLF (s : String) : String :=
  ⟨replaceCRLF s.data⟩

/-- String form of `containsCRLF`. -/
def strContainsCRLF (s : String) : Bool :=
  containsCRLF s.data

/-! ### fnmatch-style glob matching (`_includeFile`) -/

/-- Glob matching for patterns built from literals, `*` and `?`, which covers
the only pattern the code uses (`*.pyc`).  Embeds `fnmatch.fnmatch` on a
case-sensitive filesystem for such patterns. -/
def globMatch : List Char → List Char → Bool
  | [], [] => true
  | [], _ :: _ => false
  | '*' :: ps, [] => globMatch ps []
  | '*' :: ps, c :: s => globMatch ps (c :: s) || globMatch ('*' :: ps) s
  | '?' :: ps, _ :: s => globMatch ps s
  | '?' :: _, [] => false
  | p :: ps, c :: s => p = c && globMatch ps s
  | _ :: _, [] => false
termination_by p s => (p.length, s.length)

/-- Embedding of `NodeData._includeFile`: a file is included unless its name
matches one of the exclusion globs. -/
def includeFile (filename : String) (exclude : List String) : Bool :=
  !(exclude.any fun pattern => globMatch pattern.data filename.data)

/-! ### Filesystem model -/

/-- A local filesystem snapshot: the regular files, as (absolute path,
content) pairs, in directory-walk order. -/
structure FS where
  files : List (String × String)
deriving DecidableEq

/-- Look a path up in the filesystem. -/
def FS.lookup (fs : FS) (p : String) : Option String :=
  (fs.files.find? fun x => x.1 = p).map (·.2)

/-- Content of a path, defaulting to the empty string (used only under a
hypothesis that the path exists). -/
def FS.contentOf (fs : FS) (p : String) : String :=
  (fs.lookup p).getD ""

/-! ### Errors -/

/-- The four failure messages `PluginManager` interpolates into
`error.InvalidPluginDefinition`, identified by their format string, with the
interpolated plugin path carried alongside.
`pathMissing`: Plugin cannot be loaded, the path does not exist.
`entryFileMissing`: the path does not contain an entry file main.py.
`definitionFunctionMissing`: the plugin is missing a function called
definition.  `notPluginDefinitionObject`: the definition method does not
return a PluginDefinition object. -/
inductive PluginLoadFailure
  | pathMissing
  | entryFileMissing
  | definitionFunctionMissing
  | notPluginDefinitionObject
deriving DecidableEq

/-- Errors raised by the embedded code, plus the two error classes the spec
names for plugin loading.
`fileNotFound` is the Python builtin `FileNotFoundError` raised by
`zipfile.ZipFile.write` and `io.open` on a missing path (the failure the spec
calls `MissingFileError`).  `unboundLocal` is the Python builtin
`UnboundLocalError` for reading a local variable before assignment.
`attributeError` is the Python builtin `AttributeError`, carrying the
attribute name dereferenced on `None`.  `invalidCustomScript` is
`aztk.error.InvalidCustomScriptError`, carrying the offending script path
named in its message.  `invalidPluginDefinition` is
`aztk.error.InvalidPluginDefinition`, carrying the failure case and the
plugin path named in its message.
`pluginNotFound` and `pluginEntryPointMissing` are Modelled from the spec:
`aztk/error.py` is not under src/; section 7 of the spec names
`PluginNotFoundError` and `PluginEntryPointMissingError` as error classes
distinct from `InvalidPluginDefinitionError`; the embedded source never
raises them. -/
inductive PyError
  | fileNotFound
  | unboundLocal (localName : String)
  | attributeError (attr : String)
  | invalidCustomScript (script : String)
  | invalidPluginDefinition (failure : PluginLoadFailure) (path : String)
  | pluginNotFound (path : String)
  | pluginEntryPointMissing (path : String)
deriving DecidableEq

/-! ### Plugin manager embedding (`plugin_manager.py`) -/

/-- Embedding of `aztk.plugins.PluginDefinition` as consumed by
`PluginManager`: the declared name, the declared file names (relative on
load, rewritten to absolute by `_expand_definition`), the optional execute
entry (the empty string models a missing or empty entry, both falsy in
Python), and the string value of the run-on target enum. -/
structure PluginDefinition where
  name : String
  files : List String
  execute : String
  runOnValue : String
deriving DecidableEq

/-- Result of calling the entry module attribute `definition()`: either a
genuine `PluginDefinition` or a value of some other type. -/
inductive DefCallResult
  | pluginDef (d : PluginDefinition)
  | nonPluginDef
deriving DecidableEq

/-- Environment for plugin loading, keyed by the absolute plugin directory
path: `pathExists` embeds `os.path.exists` (also consulted for the entry
file path), `moduleHasDefinition` embeds `hasattr(module, "definition")` for
the module executed from the entry file of that directory, and
`definitionValue` the result of calling `module.definition()`. -/
structure ModuleEnv where
  pathExists : String → Bool
  moduleHasDefinition : String → Bool
  definitionValue : String → DefCallResult

/-- The registry state `self.plugins`: an insertion-ordered dict keyed by
plugin name. -/
abbrev Registry := List (String × PluginDefinition)

/-- Embedding of Python dict assignment `d[k] = v`: replace in place if the
key is present, append otherwise. -/
def registryInsert : Registry → String → PluginDefinition → Registry
  | [], k, v => [(k, v)]
  | (k', v') :: r, k, v =>
    if k' = k then (k, v) :: r else (k', v') :: registryInsert r k v

/-- Embedding of `PluginManager.get_plugin` (dict lookup). -/
def registryLookup (r : Registry) (k : String) : Option PluginDefinition :=
  (r.find? fun x => x.1 = k).map (·.2)

/-- Embedding of `PluginManager._expand_definition`: rewrite every declared
file name to a path rooted at the plugin directory `path`. -/
def expandDefinition (path : String) (d : PluginDefinition) : PluginDefinition :=
  { d with files := d.files.map fun file => osPathJoin path file }

/-- Embedding of `PluginManager.load_plugin` (with `_get_entry_point`,
`_load_plugin_module` and `_validate_plugin_module` inlined in source
order): resolve the path to an absolute one, require the directory and the
fixed entry file `main.py` to exist, execute the entry module, require a
`definition` attribute whose call returns a `PluginDefinition`, and store
the expanded definition keyed by its declared name. -/
def loadPlugin (env : ModuleEnv) (cwd : String) (st : Registry) (path : String) :
    Except PyError Registry :=
  let apath := pyAbspath cwd path
  if env.pathExists apath = false then
    .error (.invalidPluginDefinition .pathMissing apath)
  else if env.pathExists (osPathJoin apath "main.py") = false then
    .error (.invalidPluginDefinition .entryFileMissing apath)
  else if env.moduleHasDefinition apath = false then
    .error (.invalidPluginDefinition .definitionFunctionMissing apath)
  else
    match env.definitionValue apath with
    | .nonPluginDef => .error (.invalidPluginDefinition .notPluginDefinitionObject apath)
    | .pluginDef d => .ok (registryInsert st d.name (expandDefinition apath d))

deriving instance DecidableEq for Except

/-- Whether a load result is a `PluginNotFoundError` failure (the error class
the spec claims for an absent plugin directory). -/
def isPluginNotFoundResult : Except PyError Registry → Bool
  | .error (.pluginNotFound _) => true
  | _ => false

/-- Whether a load result is a `PluginEntryPointMissingError` failure (the
error class the spec claims for a missing entry file). -/
def isEntryPointMissingResult : Except PyError Registry → Bool
  | .error (.pluginEntryPointMissing _) => true
  | _ => false

/-! ### Bundle builder data model (`node_data.py`) -/

/-- One record of the custom-scripts metadata list:
`dict(script=new_file_name, runOn=str(custom_script.run_on))`. -/
structure ScriptMeta where
  script : String
  runOn : String
deriving DecidableEq

/-- One record of the plugins manifest:
`dict(name=..., execute=..., args=..., runOn=...)`.  The processed argument
list is carried as opaque strings. -/
structure ManifestEntry where
  name : String
  execute : String
  args : List String
  runOn : String
deriving DecidableEq

/-- The structured record `_add_user_conf` serializes into `user.yaml`. -/
structure UserRecord where
  username : String
  password : String
  sshKey : String
  aesSessionKey : String
  cipherAesNonce : String
  tag : String
  clusterId : String
deriving DecidableEq

/-- Content of one archive entry.  `text` is a string written by
`zipf.writestr` (file contents after any normalization, and raw key
strings); `binary` is a verbatim file copy by `zipf.write`.  The
serializations produced by the external `yaml.dump` and `json.dumps`
libraries are abstracted to the structured values they encode:
`scriptsMeta`, `manifestJson`, `userYaml`. -/
inductive Content
  | text (s : String)
  | binary (s : String)
  | scriptsMeta (l : List ScriptMeta)
  | manifestJson (l : List ManifestEntry)
  | userYaml (u : UserRecord)
deriving DecidableEq

/-- State of the zip archive owned by a `NodeData` instance: its destination
path, the entries in write order, and how many times `close()` has been
called on the handle. -/
structure ZipState where
  zipPath : String
  entries : List (String × Content)
  closeCount : Nat
deriving DecidableEq

/-- Embedding of one custom-script declaration: the script path and the
string rendering of its run-on target. -/
structure CustomScript where
  script : String
  runOn : String
deriving DecidableEq

/-- Embedding of one resolved plugin reference as `_add_plugins` consumes it:
`plugin_conf.plugin()` resolution and `plugin.process_args` live in aztk
model code outside src/, so the reference carries the resolved plugin name,
base path, declared files, execute entry (empty string for a missing or
empty one, both falsy) and run-on value, together with the already processed
argument list. -/
structure PluginRef where
  name : String
  path : String
  files : List String
  execute : String
  runOnValue : String
  args : List String
deriving DecidableEq

/-- Embedding of the spark configuration section.  Optional file paths use
the empty string for `None` (both falsy for `add_file`).  The
`ssh_key_pair` dict is carried as its two fields. -/
structure SparkConf where
  sparkDefaultsConf : String
  sparkEnvSh : String
  coreSiteXml : String
  sshKeyPairPub : String
  sshKeyPairPriv : String
  jars : List String
deriving DecidableEq

/-- Embedding of the user configuration section. -/
structure UserConf where
  username : String
  password : String
  sshKey : String
deriving DecidableEq

/-- Embedding of `aztk.spark.models.ClusterConfiguration` as `NodeData`
consumes it: absent optional sections are `none`. -/
structure ClusterConfiguration where
  clusterId : String
  customScripts : List CustomScript
  plugins : List PluginRef
  sparkConfiguration : Option SparkConf
  userConfiguration : Option UserConf

/-- Signature of the external `secure_utils.encrypt_password` capability:
from a recipient public key and a plaintext password to
(encrypted aes session key, cipher aes nonce, tag, ciphertext). -/
abbrev EncryptFn := String → String → String × String × String × String

/-! ### Bundle builder operations -/

/-- Embedding of `zipf.writestr(name, content)`: append one entry. -/
def writestr (st : ZipState) (name : String) (c : Content) : ZipState :=
  { st with entries := st.entries ++ [(name, c)] }

/-- Sequence two stage computations, propagating a raised error and the
archive state at the raise point. -/
def stageThen (r : ZipState × Option PyError) (f : ZipState → ZipState × Option PyError) :
    ZipState × Option PyError :=
  match r with
  | (st, some e) => (st, some e)
  | (st, none) => f st

/-- Embedding of `NodeData.__init__`: record the fixed destination path
`os.path.join(ROOT_PATH, "tmp/node-scripts.zip")` and open a fresh archive.
`ROOT_PATH` (from `aztk.utils.constants`, outside src/) is a module
constant, passed here as the `rootPath` parameter. -/
def NodeData.init (rootPath : String) (_cfg : ClusterConfiguration) : ZipState :=
  { zipPath := osPathJoin rootPath "tmp/node-scripts.zip"
    entries := []
    closeCount := 0 }

/-- Embedding of `NodeData.done`: `self.zipf.close()`. -/
def NodeData.done (st : ZipState) : ZipState :=
  { st with closeCount := st.closeCount + 1 }

/-- Embedding of `NodeData.add_file`: a falsy (empty) source path is a
no-op; otherwise a missing path raises `FileNotFoundError` (from
`zipf.write` in binary mode, from `io.open` in text mode) writing nothing;
otherwise the file is stored under `zip_dir/<basename>` — verbatim in
binary mode, and in text mode as the universal-newlines text-mode read
followed by the CR LF to LF replace of the source expression. -/
def add_file (fs : FS) (filePath zipDir : String) (bin : Bool) (st : ZipState) :
    ZipState × Option PyError :=
  if filePath = "" then (st, none)
  else
    match fs.lookup filePath with
    | none => (st, some .fileNotFound)
    | some c =>
      if bin then
        (writestr st (osPathJoin zipDir (basename filePath)) (.binary c), none)
      else
        (writestr st (osPathJoin zipDir (basename filePath))
          (.text (pyReplaceCRLF (pyTextRead c))), none)

/-- Embedding of `NodeData.add_files`: add each path in order, propagating
the first error. -/
def add_files (fs : FS) (filePaths : List String) (zipDir : String) (bin : Bool)
    (st : ZipState) : ZipState × Option PyError :=
  match filePaths with
  | [] => (st, none)
  | p :: rest => stageThen (add_file fs p zipDir bin st) (add_files fs rest zipDir bin)

/-- The archive entry name `add_dir` computes for a file at relative path
`rel` below the walked directory: `os.path.join(relative_folder, file)`,
where `relative_folder` is `.` for a file directly in the directory. -/
def addDirEntryName (rel : String) : String :=
  if rel.data.contains '/' then rel else "./" ++ rel

/-- The entries `NodeData.add_dir` writes for a walk of `path`: every
filesystem file strictly below `path`, except those whose base name matches
an exclusion glob, stored under its walk-relative name as its text-mode
read (universal newlines) followed by the CR LF to LF replace.  `os.walk`
enumeration is modelled by the filesystem snapshot order. -/
def addDirNewEntries (fs : FS) (path : String) (exclude : List String) :
    List (String × Content) :=
  fs.files.filterMap fun pc =>
    if strStartsWith pc.1 (path ++ "/") then
      let rel := strDrop pc.1 (path.length + 1)
      if includeFile (basename rel) exclude then
        some (addDirEntryName rel, .text (pyReplaceCRLF (pyTextRead pc.2)))
      else none
    else none

/-- Embedding of `NodeData.add_dir`: write all included files below `path`.
Reading a walked file never raises, so the stage returns no error. -/
def add_dir (fs : FS) (path : String) (exclude : List String) (st : ZipState) : ZipState :=
  { st with entries := st.entries ++ addDirNewEntries fs path exclude }

/-- Embedding of `NodeData._add_node_scripts`:
`add_dir(join(ROOT_PATH, "node_scripts"), exclude=["*.pyc"])`. -/
def addNodeScripts (fs : FS) (rootPath : String) (st : ZipState) : ZipState :=
  add_dir fs (osPathJoin rootPath "node_scripts") ["*.pyc"] st

/-- Loop of `NodeData._add_custom_scripts` over the declared scripts,
carrying the enumeration index and the accumulated metadata list.  Each
script is renamed to `<index>_<basename>`, its metadata record is appended
before the copy is attempted, a missing script raises
`InvalidCustomScriptError` naming the path, and an existing one is stored
as its text-mode read (universal newlines) followed by the CR LF to LF
replace.  After the loop the metadata list is serialized to
`custom-scripts/custom-scripts.yaml`. -/
def addCustomScriptsLoop (fs : FS) (index : Nat) (data : List ScriptMeta)
    (scripts : List CustomScript) (st : ZipState) : ZipState × Option PyError :=
  match scripts with
  | [] =>
    (writestr st (osPathJoin "custom-scripts" "custom-scripts.yaml") (.scriptsMeta data), none)
  | s :: rest =>
    let newName := toString index ++ "_" ++ basename s.script
    let data' := data ++ [⟨newName, s.runOn⟩]
    match fs.lookup s.script with
    | none => (st, some (.invalidCustomScript s.script))
    | some c =>
      addCustomScriptsLoop fs (index + 1) data' rest
        (writestr st (osPathJoin "custom-scripts" newName)
          (.text (pyReplaceCRLF (pyTextRead c))))

/-- Embedding of `NodeData._add_custom_scripts`. -/
def addCustomScripts (fs : FS) (scripts : List CustomScript) (st : ZipState) :
    ZipState × Option PyError :=
  addCustomScriptsLoop fs 0 [] scripts st

/-- Inner file loop of `NodeData._add_plugins` for one plugin: each declared
file is added as text under `plugins/<plugin-name>`, and each completed
`zipf = self.add_file(...)` assignment binds the local `zipf`.  Returns the
state, whether `zipf` was bound, and any raised error. -/
def addPluginFiles (fs : FS) (p : PluginRef) (files : List String) (bound : Bool)
    (st : ZipState) : ZipState × Bool × Option PyError :=
  match files with
  | [] => (st, bound, none)
  | f :: rest =>
    match add_file fs (osPathJoin p.path f) ("plugins/" ++ p.name) false st with
    | (st', some e) => (st', bound, some e)
    | (st', none) => addPluginFiles fs p rest true st'

/-- Outer loop of `NodeData._add_plugins` over the plugin references,
accumulating the manifest records `data` (one appended per plugin with a
truthy execute entry, in declared order) and whether the local `zipf` was
ever bound. -/
def addPluginsLoop (fs : FS) (plugins : List PluginRef) (data : List ManifestEntry)
    (bound : Bool) (st : ZipState) : ZipState × List ManifestEntry × Bool × Option PyError :=
  match plugins with
  | [] => (st, data, bound, none)
  | p :: rest =>
    match addPluginFiles fs p p.files bound st with
    | (st', bound', some e) => (st', data, bound', some e)
    | (st', bound', none) =>
      let data' :=
        if p.execute ≠ "" then
          data ++ [⟨p.name, p.name ++ "/" ++ p.execute, p.args, p.runOnValue⟩]
        else data
      addPluginsLoop fs rest data' bound' st'

/-- Embedding of `NodeData._add_plugins`: run the plugin loop, serialize the
accumulated manifest to `plugins/plugins-manifest.json`, then execute
`return zipf` — which raises `UnboundLocalError` when no
`zipf = self.add_file(...)` assignment ever ran (no plugin contributed a
file). -/
def addPlugins (fs : FS) (plugins : List PluginRef) (st : ZipState) :
    ZipState × Option PyError :=
  match addPluginsLoop fs plugins [] false st with
  | (st', _, _, some e) => (st', some e)
  | (st', data, bound, none) =>
    let st'' := writestr st' (osPathJoin "plugins" "plugins-manifest.json")
      (.manifestJson data)
    if bound then (st'', none) else (st'', some (.unboundLocal "zipf"))

/-- Embedding of `NodeData._add_spark_configuration`: no-op when the section
is absent; otherwise add the three config files as text under `conf`, write
the two SSH key strings at fixed top-level names, and add each jar as
binary under `jars` when the jar list is truthy (non-empty). -/
def addSparkConfiguration (fs : FS) (spark : Option SparkConf) (st : ZipState) :
    ZipState × Option PyError :=
  match spark with
  | none => (st, none)
  | some sc =>
    stageThen
      (add_files fs [sc.sparkDefaultsConf, sc.sparkEnvSh, sc.coreSiteXml] "conf" false st)
      fun st1 =>
        let st2 := writestr st1 "id_rsa.pub" (.text sc.sshKeyPairPub)
        let st3 := writestr st2 "id_rsa" (.text sc.sshKeyPairPriv)
        add_files fs sc.jars "jars" true st3

/-- Embedding of `NodeData._add_user_conf`: no-op when the user section is
absent; otherwise dereference
`self.cluster_config.spark_configuration.ssh_key_pair["pub_key"]` — raising
`AttributeError` on the attribute `ssh_key_pair` when the spark section is
`None` — then encrypt the password with the external capability and write
the structured `user.yaml` record. -/
def addUserConf (encrypt : EncryptFn) (cfg : ClusterConfiguration) (st : ZipState) :
    ZipState × Option PyError :=
  match cfg.userConfiguration with
  | none => (st, none)
  | some u =>
    match cfg.sparkConfiguration with
    | none => (st, some (.attributeError "ssh_key_pair"))
    | some sc =>
      let r := encrypt sc.sshKeyPairPub u.password
      (writestr st "user.yaml"
        (.userYaml ⟨u.username, r.2.2.2, u.sshKey, r.1, r.2.1, r.2.2.1, cfg.clusterId⟩), none)

/-- Embedding of `NodeData.add_core`: the six build stages in source order,
each started only if the previous one did not raise. -/
def add_core (encrypt : EncryptFn) (fs : FS) (rootPath : String)
    (cfg : ClusterConfiguration) (st : ZipState) : ZipState × Option PyError :=
  stageThen (addNodeScripts fs rootPath st, none) fun st1 =>
  stageThen (addCustomScripts fs cfg.customScripts st1) fun st2 =>
  stageThen (addPlugins fs cfg.plugins st2) fun st3 =>
  stageThen (addSparkConfiguration fs cfg.sparkConfiguration st3) fun st4 =>
  stageThen (addUserConf encrypt cfg st4) fun st5 =>
  add_file fs (osPathJoin (osPathJoin (osPathJoin rootPath "aztk") "utils") "command_builder.py")
    "" false st5

/-- Embedding of the context-manager protocol for
`with NodeData(cluster_config) as node_data: pass`: `__init__` opens the
archive, `__enter__` runs `add_core`, and `__exit__` runs `done` — but, per
Python semantics, only when `__enter__` returned normally; an exception
raised inside `__enter__` propagates without `__exit__` being invoked. -/
def buildWithStatement (encrypt : EncryptFn) (fs : FS) (rootPath : String)
    (cfg : ClusterConfiguration) : ZipState × Option PyError :=
  let st0 := NodeData.init rootPath cfg
  match add_core encrypt fs rootPath cfg st0 with
  | (st, some e) => (st, some e)
  | (st, none) => (NodeData.done st, none)

/-! ### Spec-side descriptions of the generated artifacts

These definitions follow the words of the spec, not the loop structure of
the source; the theorems below compare the source embedding against them. -/

/-- Spec-side archive entries of the custom-scripts stage starting at a
given index: the script at position `index` is stored in the custom-scripts
directory under `<index>_<basename>`, with text normalization. -/
def specCustomScriptEntriesFrom (fs : FS) (index : Nat) :
    List CustomScript → List (String × Content)
  | [] => []
  | s :: rest =>
    (osPathJoin "custom-scripts" (toString index ++ "_" ++ basename s.script),
      Content.text (pyReplaceCRLF (pyTextRead (fs.contentOf s.script))))
      :: specCustomScriptEntriesFrom fs (index + 1) rest

/-- Spec-side custom-scripts metadata starting at a given index: one
`{script, runOn}` record per script, in declared order, with the renamed
file name. -/
def specScriptsMetaFrom (index : Nat) : List CustomScript → List ScriptMeta
  | [] => []
  | s :: rest =>
    ⟨toString index ++ "_" ++ basename s.script, s.runOn⟩
      :: specScriptsMetaFrom (index + 1) rest

/-- Spec-side archive entries of the custom-scripts stage (zero-based). -/
def specCustomScriptEntries (fs : FS) (scripts : List CustomScript) :
    List (String × Content) :=
  specCustomScriptEntriesFrom fs 0 scripts

/-- Spec-side custom-scripts metadata (zero-based, declared order). -/
def specScriptsMeta (scripts : List CustomScript) : List ScriptMeta :=
  specScriptsMetaFrom 0 scripts

/-- Spec-side per-plugin file entries: every declared file of every plugin,
in declared order, stored as text in the per-plugin subdirectory of the
plugins directory. -/
def specPluginFileEntries (fs : FS) : List PluginRef → List (String × Content)
  | [] => []
  | p :: rest =>
    (p.files.map fun f =>
      (osPathJoin ("plugins/" ++ p.name) (basename (osPathJoin p.path f)),
        Content.text (pyReplaceCRLF (pyTextRead (fs.contentOf (osPathJoin p.path f))))))
      ++ specPluginFileEntries fs rest

/-- Spec-side plugins manifest: one `{name, execute, args, runOn}` record
per plugin whose definition declares a non-empty execute entry, in declared
order; plugins without one contribute no record. -/
def specPluginManifest (plugins : List PluginRef) : List ManifestEntry :=
  plugins.filterMap fun p =>
    if p.execute ≠ "" then
      some ⟨p.name, p.name ++ "/" ++ p.execute, p.args, p.runOnValue⟩
    else none

/-! ### Concrete fixtures for witnesses and counterexamples -/

/-- Stub for the external encryption capability. -/
def encStub : EncryptFn := fun _ _ => ("", "", "", "")

/-- An empty archive state used by concrete instantiations. -/
def stEmpty : ZipState := ⟨"/r/tmp/node-scripts.zip", [], 0⟩

/-- A resolved plugin with one file and an execute entry. -/
def pluginC1 : PluginRef := ⟨"ganglia", "/plugins/ganglia", ["run.sh"], "run.sh", "ALL", []⟩

/-- Filesystem on which the full build of `cfgC1` succeeds. -/
def fsC1ok : FS :=
  ⟨[("/scripts/foo.sh", "echo hi\r\n"), ("/plugins/ganglia/run.sh", "run\n"),
    ("/r/aztk/utils/command_builder.py", "py\n")]⟩

/-- Empty filesystem: the custom script of `cfgC1` is missing. -/
def fsC1fail : FS := ⟨[]⟩

/-- Configuration with one custom script and one plugin. -/
def cfgC1 : ClusterConfiguration :=
  ⟨"cluster-a", [⟨"/scripts/foo.sh", "ALL"⟩], [pluginC1], none, none⟩

/-- Filesystem for end-to-end scenario A: the declared custom script exists
(and so does the utility file the last stage would copy). -/
def fsC2 : FS :=
  ⟨[("/data/foo.sh", "echo scenario a\n"),
    ("/opt/aztk/aztk/utils/command_builder.py", "py\n")]⟩

/-- Scenario A configuration: one custom script `foo.sh`, no plugins, no
spark configuration, no user configuration. -/
def cfgC2 : ClusterConfiguration :=
  ⟨"cluster-b", [⟨"/data/foo.sh", "ALL"⟩], [], none, none⟩

/-- Plugin-loading environment in which no path exists. -/
def envC3 : ModuleEnv := ⟨fun _ => false, fun _ => false, fun _ => .nonPluginDef⟩

/-- Environment where the plugin directory exists but has no `main.py`. -/
def envC3b : ModuleEnv := ⟨fun p => p == "/plugins/b", fun _ => false, fun _ => .nonPluginDef⟩

/-- Environment where directory and entry file exist but the module has no
`definition` attribute. -/
def envC3c : ModuleEnv :=
  ⟨fun p => p == "/plugins/c" || p == "/plugins/c/main.py", fun _ => false,
    fun _ => .nonPluginDef⟩

/-- Environment where `definition()` returns a non-PluginDefinition value. -/
def envC3d : ModuleEnv :=
  ⟨fun p => p == "/plugins/d" || p == "/plugins/d/main.py", fun _ => true,
    fun _ => .nonPluginDef⟩

/-- Previously stored definition under the name `ganglia`. -/
def defC8old : PluginDefinition := ⟨"ganglia", ["/old/ganglia/old.sh"], "old.sh", "MASTER"⟩

/-- Newly declared definition under the same name `ganglia`. -/
def defC8new : PluginDefinition := ⟨"ganglia", ["run.sh", "conf/g.conf"], "run.sh", "ALL"⟩

/-- Environment in which loading `/plugins/ganglia` succeeds with
`defC8new`. -/
def envC8 : ModuleEnv :=
  ⟨fun p => p == "/plugins/ganglia" || p == "/plugins/ganglia/main.py",
    fun p => p == "/plugins/ganglia",
    fun p => if p == "/plugins/ganglia" then .pluginDef defC8new else .nonPluginDef⟩

/-- Registry already holding an entry named `ganglia`. -/
def regC8 : Registry := [("ganglia", defC8old)]

/-- Filesystem whose only file mixes a bare CR with a CR LF pair. -/
def fsC5 : FS := ⟨[("/in/script.sh", "a\r\r\nb")]⟩

/-- Filesystem with two Windows-style text files for witnesses. -/
def fsC5w : FS := ⟨[("/ns/f.sh", "l1\r\nl2\r\n"), ("/u/a.sh", "A\r\nA2\n")]⟩

/-- Two custom scripts, both present in `fsC6`. -/
def scriptsC6 : List CustomScript := [⟨"/u/a.sh", "ALL"⟩, ⟨"/u/b.sh", "MASTER"⟩]

/-- Custom-script list whose second entry is missing from `fsC6`. -/
def scriptsC6bad : List CustomScript := [⟨"/u/a.sh", "ALL"⟩, ⟨"/u/missing.sh", "ALL"⟩]

/-- Filesystem holding the two scripts of `scriptsC6`. -/
def fsC6 : FS := ⟨[("/u/a.sh", "A\r\nA2\n"), ("/u/b.sh", "B\n")]⟩

/-- A plugin declaring files but no execute entry. -/
def pluginC7a : PluginRef := ⟨"jupyter", "/plugins/jupyter", ["a.conf"], "", "ALL", []⟩

/-- A plugin declaring one file and an execute entry. -/
def pluginC7b : PluginRef :=
  ⟨"ganglia", "/plugins/ganglia", ["run.sh"], "run.sh", "ALL", ["arg1"]⟩

/-- Filesystem holding the declared files of `pluginC7a` and `pluginC7b`. -/
def fsC7 : FS :=
  ⟨[("/plugins/jupyter/a.conf", "c\n"), ("/plugins/ganglia/run.sh", "r\n")]⟩

/-- Configuration with a user section but no spark section. -/
def cfgC9 : ClusterConfiguration :=
  ⟨"cluster-c", [], [], none, some ⟨"alice", "hunter2", "ssh-rsa-key"⟩⟩

/-! ### Helper lemmas -/

/-- The universal-newlines translation leaves no CR in the text. -/
theorem containsCR_universalNewlines : ∀ l : List Char,
    containsCR (universalNewlines l) = false
  | [] => by simp [universalNewlines, containsCR]
  | [c] => by
    by_cases hc : c = '\r' <;> simp [universalNewlines, containsCR, hc]
  | a :: b :: rest => by
    by_cases ha : a = '\r'
    · by_cases hb : b = '\n'
      · have ih := containsCR_universalNewlines rest
        simp [universalNewlines, ha, hb, containsCR, ih]
      · have ih := containsCR_universalNewlines (b :: rest)
        simp [universalNewlines, ha, hb, containsCR, ih]
    · have ih := containsCR_universalNewlines (b :: rest)
      simp [universalNewlines, ha, containsCR, ih]

/-- The one-pass CR LF replace is the identity on CR-free text. -/
theorem replaceCRLF_of_noCR : ∀ l : List Char,
    containsCR l = false → replaceCRLF l = l
  | [] => by intro _; simp [replaceCRLF]
  | [c] => by intro _; simp [replaceCRLF]
  | a :: b :: rest => by
    intro h
    simp only [containsCR, Bool.or_eq_false_iff, decide_eq_false_iff_not] at h
    have hbr : containsCR (b :: rest) = false := by
      simp [containsCR, h.2.1, h.2.2]
    have ih := replaceCRLF_of_noCR (b :: rest) hbr
    simp [replaceCRLF, h.1, ih]

/-- CR-free text contains no CR LF pair. -/
theorem containsCRLF_eq_false_of_noCR : ∀ l : List Char,
    containsCR l = false → containsCRLF l = false
  | [] => by intro _; simp [containsCRLF]
  | [_] => by intro _; simp [containsCRLF]
  | a :: b :: rest => by
    intro h
    simp only [containsCR, Bool.or_eq_false_iff, decide_eq_false_iff_not] at h
    have ih := containsCRLF_eq_false_of_noCR (b :: rest) (by simp [containsCR, h.2])
    simp [containsCRLF, h.1, ih]

/-- What the text branches store — the text-mode read followed by the
source's CR LF replace — contains no CR LF pair, whatever the raw source
content. -/
theorem storedText_no_crlf (l : List Char) :
    containsCRLF (replaceCRLF (universalNewlines l)) = false := by
  rw [replaceCRLF_of_noCR _ (containsCR_universalNewlines l)]
  exact containsCRLF_eq_false_of_noCR _ (containsCR_universalNewlines l)

/-- Dict assignment followed by lookup of the same key yields the assigned
value. -/
theorem registryLookup_insert : ∀ (r : Registry) (k : String) (v : PluginDefinition),
    registryLookup (registryInsert r k v) k = some v
  | [], k, v => by simp [registryInsert, registryLookup, List.find?]
  | (k', v') :: r, k, v => by
    by_cases h : k' = k
    · simp [registryInsert, registryLookup, h, List.find?]
    · have ih := registryLookup_insert r k v
      simp only [registryInsert, if_neg h]
      simpa [registryLookup, List.find?, h] using ih

/-- Invariant of the custom-scripts loop when every remaining script exists:
it writes the spec-side entries from the current index, then the metadata
record extending the accumulator, and raises nothing. -/
theorem addCustomScriptsLoop_ok :
    ∀ (scripts : List CustomScript) (fs : FS) (index : Nat) (data : List ScriptMeta)
      (st : ZipState),
    (∀ s ∈ scripts, (fs.lookup s.script).isSome = true) →
    addCustomScriptsLoop fs index data scripts st =
      ({ st with entries := st.entries ++ specCustomScriptEntriesFrom fs index scripts
          ++ [(osPathJoin "custom-scripts" "custom-scripts.yaml",
               .scriptsMeta (data ++ specScriptsMetaFrom index scripts))] }, none)
  | [], fs, index, data, st => by
    intro _
    simp [addCustomScriptsLoop, writestr, specCustomScriptEntriesFrom, specScriptsMetaFrom]
  | s :: rest, fs, index, data, st => by
    intro h
    have hs : (fs.lookup s.script).isSome = true := h s (by simp)
    obtain ⟨c, hc⟩ := Option.isSome_iff_exists.mp hs
    have ih := addCustomScriptsLoop_ok rest fs (index + 1) (data ++ [⟨toString index ++ "_" ++ basename s.script, s.runOn⟩])
      (writestr st (osPathJoin "custom-scripts" (toString index ++ "_" ++ basename s.script))
        (.text (pyReplaceCRLF (pyTextRead c))))
      (fun t ht => h t (by simp [ht]))
    simp only [addCustomScriptsLoop, hc] at ih ⊢
    rw [ih]
    have hcontent : fs.contentOf s.script = c := by
      simp [FS.contentOf, hc]
    simp [writestr, specCustomScriptEntriesFrom, specScriptsMetaFrom, hcontent,
      List.append_assoc]

/-- When a prefix of existing scripts is followed by a missing one, the
custom-scripts loop raises `InvalidCustomScriptError` naming its path. -/
theorem addCustomScriptsLoop_err :
    ∀ (pre : List CustomScript) (s : CustomScript) (post : List CustomScript) (fs : FS)
      (index : Nat) (data : List ScriptMeta) (st : ZipState),
    (∀ t ∈ pre, (fs.lookup t.script).isSome = true) →
    fs.lookup s.script = none →
    (addCustomScriptsLoop fs index data (pre ++ s :: post) st).2 =
      some (.invalidCustomScript s.script)
  | [], s, post, fs, index, data, st => by
    intro _ hmiss
    simp [addCustomScriptsLoop, hmiss]
  | t :: pre, s, post, fs, index, data, st => by
    intro h hmiss
    have ht : (fs.lookup t.script).isSome = true := h t (by simp)
    obtain ⟨c, hc⟩ := Option.isSome_iff_exists.mp ht
    have ih := addCustomScriptsLoop_err pre s post fs (index + 1)
      (data ++ [⟨toString index ++ "_" ++ basename t.script, t.runOn⟩])
      (writestr st (osPathJoin "custom-scripts" (toString index ++ "_" ++ basename t.script))
        (.text (pyReplaceCRLF (pyTextRead c))))
      (fun u hu => h u (by simp [hu])) hmiss
    simpa [addCustomScriptsLoop, hc] using ih

/-- Every entry present after running the custom-scripts loop is either a
pre-existing entry, a normalized text entry, or the metadata record. -/
theorem mem_addCustomScriptsLoop :
    ∀ (scripts : List CustomScript) (fs : FS) (index : Nat) (data : List ScriptMeta)
      (st : ZipState) (e : String × Content),
    e ∈ (addCustomScriptsLoop fs index data scripts st).1.entries →
    e ∈ st.entries ∨ (∃ src, e.2 = .text (pyReplaceCRLF (pyTextRead src))) ∨
      ∃ l, e.2 = Content.scriptsMeta l
  | [], fs, index, data, st, e => by
    intro hmem
    simp only [addCustomScriptsLoop, writestr, List.mem_append] at hmem
    rcases hmem with hmem | hmem
    · exact Or.inl hmem
    · simp only [List.mem_singleton] at hmem
      subst hmem
      exact Or.inr (Or.inr ⟨data, rfl⟩)
  | s :: rest, fs, index, data, st, e => by
    intro hmem
    cases hc : fs.lookup s.script with
    | none =>
      simp only [addCustomScriptsLoop, hc] at hmem
      exact Or.inl hmem
    | some c =>
      simp only [addCustomScriptsLoop, hc] at hmem
      have ih := mem_addCustomScriptsLoop rest fs (index + 1)
        (data ++ [⟨toString index ++ "_" ++ basename s.script, s.runOn⟩])
        (writestr st (osPathJoin "custom-scripts" (toString index ++ "_" ++ basename s.script))
          (.text (pyReplaceCRLF (pyTextRead c)))) e hmem
      rcases ih with hin | h2
      · simp only [writestr, List.mem_append, List.mem_singleton] at hin
        rcases hin with hin | hin
        · exact Or.inl hin
        · subst hin
          exact Or.inr (Or.inl ⟨c, rfl⟩)
      · exact Or.inr h2

/-- Text-mode `add_file` on an existing path writes the normalized content
under the basename and raises nothing. -/
theorem add_file_text (fs : FS) (p zd : String) (st : ZipState) (c : String)
    (hne : p ≠ "") (hc : fs.lookup p = some c) :
    add_file fs p zd false st =
      (writestr st (osPathJoin zd (basename p)) (.text (pyReplaceCRLF (pyTextRead c))), none) := by
  simp [add_file, hne, hc]

/-- Binary-mode `add_file` on an existing path copies the content verbatim
under the basename and raises nothing. -/
theorem add_file_binary (fs : FS) (p zd : String) (st : ZipState) (c : String)
    (hne : p ≠ "") (hc : fs.lookup p = some c) :
    add_file fs p zd true st =
      (writestr st (osPathJoin zd (basename p)) (.binary c), none) := by
  simp [add_file, hne, hc]

/-- Invariant of the per-plugin file loop when every declared file resolves
to a non-empty, existing path: it writes one normalized text entry per file
in order, binds `zipf` iff at least one file was processed, and raises
nothing. -/
theorem addPluginFiles_ok :
    ∀ (files : List String) (fs : FS) (p : PluginRef) (bound : Bool) (st : ZipState),
    (∀ f ∈ files, osPathJoin p.path f ≠ "" ∧ (fs.lookup (osPathJoin p.path f)).isSome = true) →
    addPluginFiles fs p files bound st =
      ({ st with entries := st.entries ++ (files.map fun f =>
          (osPathJoin ("plugins/" ++ p.name) (basename (osPathJoin p.path f)),
            Content.text (pyReplaceCRLF (pyTextRead (fs.contentOf (osPathJoin p.path f)))))) },
        (bound || !files.isEmpty), none)
  | [], fs, p, bound, st => by
    intro _
    simp [addPluginFiles]
  | f :: rest, fs, p, bound, st => by
    intro h
    obtain ⟨hne, hsome⟩ := h f (by simp)
    obtain ⟨c, hc⟩ := Option.isSome_iff_exists.mp hsome
    have ih := addPluginFiles_ok rest fs p true
      (writestr st (osPathJoin ("plugins/" ++ p.name) (basename (osPathJoin p.path f)))
        (.text (pyReplaceCRLF (pyTextRead c))))
      (fun g hg => h g (by simp [hg]))
    have hcontent : fs.contentOf (osPathJoin p.path f) = c := by
      simp [FS.contentOf, hc]
    simp only [addPluginFiles, add_file_text fs _ _ st c hne hc]
    rw [ih]
    simp [writestr, hcontent, List.append_assoc]

/-- Invariant of the plugin loop when every declared file of every plugin
resolves to a non-empty, existing path: it writes the spec-side per-plugin
file entries, extends the manifest accumulator with the spec-side manifest,
binds `zipf` iff some plugin declared a file, and raises nothing. -/
theorem addPluginsLoop_ok :
    ∀ (plugins : List PluginRef) (fs : FS) (data : List ManifestEntry) (bound : Bool)
      (st : ZipState),
    (∀ p ∈ plugins, ∀ f ∈ p.files,
      osPathJoin p.path f ≠ "" ∧ (fs.lookup (osPathJoin p.path f)).isSome = true) →
    addPluginsLoop fs plugins data bound st =
      ({ st with entries := st.entries ++ specPluginFileEntries fs plugins },
        data ++ specPluginManifest plugins,
        (bound || plugins.any fun p => !p.files.isEmpty), none)
  | [], fs, data, bound, st => by
    intro _
    simp [addPluginsLoop, specPluginFileEntries, specPluginManifest]
  | p :: rest, fs, data, bound, st => by
    intro h
    have hfiles := addPluginFiles_ok p.files fs p bound st (h p (by simp))
    have ih := addPluginsLoop_ok rest fs
      (if p.execute ≠ "" then
        data ++ [⟨p.name, p.name ++ "/" ++ p.execute, p.args, p.runOnValue⟩]
       else data)
      (bound || !p.files.isEmpty)
      ({ st with entries := st.entries ++ (p.files.map fun f =>
          (osPathJoin ("plugins/" ++ p.name) (basename (osPathJoin p.path f)),
            Content.text (pyReplaceCRLF (pyTextRead (fs.contentOf (osPathJoin p.path f)))))) })
      (fun q hq => h q (by simp [hq]))
    simp only [addPluginsLoop, hfiles]
    rw [ih]
    by_cases hex : p.execute = "" <;>
      simp [specPluginFileEntries, specPluginManifest, List.filterMap_cons, hex,
        List.append_assoc, Bool.or_assoc, List.any_cons]

/-- Every entry `add_dir` appends carries normalized text content. -/
theorem mem_addDirNewEntries (fs : FS) (path : String) (exclude : List String)
    (e : String × Content) (hmem : e ∈ addDirNewEntries fs path exclude) :
    ∃ src, e.2 = Content.text (pyReplaceCRLF (pyTextRead src)) := by
  simp only [addDirNewEntries, List.mem_filterMap] at hmem
  obtain ⟨pc, _, heq⟩ := hmem
  by_cases h1 : strStartsWith pc.1 (path ++ "/")
  · rw [if_pos h1] at heq
    by_cases h2 : includeFile (basename (strDrop pc.1 (path.length + 1))) exclude
    · rw [if_pos h2] at heq
      obtain rfl := Option.some_injective _ heq
      exact ⟨pc.2, rfl⟩
    · rw [if_neg h2] at heq
      exact absurd heq (by simp)
  · rw [if_neg h1] at heq
    exact absurd heq (by simp)

/-! ### Claim theorems -/

/-- C1: evaluation of the build at concrete inputs. On a configuration whose
build succeeds the archive handle is closed exactly once; but on the same
configuration with its custom script missing from disk, the staged build
raises inside the context-manager entry, the exit hook never runs, and the
handle is closed zero times — contradicting the claim that the builder
closes the archive exactly once on every exit path. -/
theorem C1_close_exit_paths :
    ((buildWithStatement encStub fsC1ok "/r" cfgC1).2 = none ∧
      (buildWithStatement encStub fsC1ok "/r" cfgC1).1.closeCount = 1) ∧
    ((buildWithStatement encStub fsC1fail "/r" cfgC1).2 =
        some (.invalidCustomScript "/scripts/foo.sh") ∧
      (buildWithStatement encStub fsC1fail "/r" cfgC1).1.closeCount = 0) := by
  decide

/-- C2: evaluation of end-to-end scenario A. With exactly one custom script
`foo.sh` and no plugins, no spark configuration and no user configuration,
the staged entries `custom-scripts/0_foo.sh` and the one-record metadata are
written as the claim describes, but the build then raises
`UnboundLocalError` on the trailing `return zipf` of the plugins stage
(no plugin file assignment ever ran), so the build does not succeed and the
handle is never closed. -/
theorem C2_scenarioA_build :
    buildWithStatement encStub fsC2 "/opt/aztk" cfgC2 =
      ({ zipPath := "/opt/aztk/tmp/node-scripts.zip",
         entries := [("custom-scripts/0_foo.sh", .text "echo scenario a\n"),
           ("custom-scripts/custom-scripts.yaml", .scriptsMeta [⟨"0_foo.sh", "ALL"⟩]),
           ("plugins/plugins-manifest.json", .manifestJson [])],
         closeCount := 0 }, some (.unboundLocal "zipf")) := by
  decide

/-- C3 counterexample: loading a plugin whose directory does not exist fails
with `InvalidPluginDefinition`, not with `PluginNotFoundError`; loading a
directory without `main.py` also fails with `InvalidPluginDefinition`, not
with `PluginEntryPointMissingError`. -/
theorem C3_counterexample :
    loadPlugin envC3 "/" [] "/plugins/foo" =
      .error (.invalidPluginDefinition .pathMissing "/plugins/foo") ∧
    isPluginNotFoundResult (loadPlugin envC3 "/" [] "/plugins/foo") = false ∧
    loadPlugin envC3b "/" [] "/plugins/b" =
      .error (.invalidPluginDefinition .entryFileMissing "/plugins/b") ∧
    isEntryPointMissingResult (loadPlugin envC3b "/" [] "/plugins/b") = false := by
  decide

/-- C3 (amended): loading a plugin fails with the single exception class
`InvalidPluginDefinition` in all four situations — absent directory, absent
entry file `main.py`, module without a `definition` attribute, and
`definition()` returning a non-PluginDefinition value — distinguished only
by the interpolated message, which names the plugin path. -/
theorem C3_load_failures_amended (env : ModuleEnv) (cwd : String) (st : Registry)
    (path : String) :
    (env.pathExists (pyAbspath cwd path) = false →
      loadPlugin env cwd st path =
        .error (.invalidPluginDefinition .pathMissing (pyAbspath cwd path))) ∧
    (env.pathExists (pyAbspath cwd path) = true →
      env.pathExists (osPathJoin (pyAbspath cwd path) "main.py") = false →
      loadPlugin env cwd st path =
        .error (.invalidPluginDefinition .entryFileMissing (pyAbspath cwd path))) ∧
    (env.pathExists (pyAbspath cwd path) = true →
      env.pathExists (osPathJoin (pyAbspath cwd path) "main.py") = true →
      env.moduleHasDefinition (pyAbspath cwd path) = false →
      loadPlugin env cwd st path =
        .error (.invalidPluginDefinition .definitionFunctionMissing (pyAbspath cwd path))) ∧
    (env.pathExists (pyAbspath cwd path) = true →
      env.pathExists (osPathJoin (pyAbspath cwd path) "main.py") = true →
      env.moduleHasDefinition (pyAbspath cwd path) = true →
      env.definitionValue (pyAbspath cwd path) = .nonPluginDef →
      loadPlugin env cwd st path =
        .error (.invalidPluginDefinition .notPluginDefinitionObject (pyAbspath cwd path))) := by
  refine ⟨?_, ?_, ?_, ?_⟩ <;> intros <;> simp [loadPlugin, *]

/-- Concrete instantiation of the four amended load-failure cases. -/
theorem C3_load_failures_amended_witness :
    (envC3.pathExists (pyAbspath "/" "/plugins/foo") = false ∧
      loadPlugin envC3 "/" [] "/plugins/foo" =
        .error (.invalidPluginDefinition .pathMissing (pyAbspath "/" "/plugins/foo"))) ∧
    (envC3b.pathExists (pyAbspath "/" "/plugins/b") = true ∧
      envC3b.pathExists (osPathJoin (pyAbspath "/" "/plugins/b") "main.py") = false ∧
      loadPlugin envC3b "/" [] "/plugins/b" =
        .error (.invalidPluginDefinition .entryFileMissing (pyAbspath "/" "/plugins/b"))) ∧
    (envC3c.moduleHasDefinition (pyAbspath "/" "/plugins/c") = false ∧
      loadPlugin envC3c "/" [] "/plugins/c" =
        .error (.invalidPluginDefinition .definitionFunctionMissing (pyAbspath "/" "/plugins/c"))) ∧
    (envC3d.definitionValue (pyAbspath "/" "/plugins/d") = .nonPluginDef ∧
      loadPlugin envC3d "/" [] "/plugins/d" =
        .error (.invalidPluginDefinition .notPluginDefinitionObject (pyAbspath "/" "/plugins/d"))) :=
  ⟨⟨by decide, (C3_load_failures_amended envC3 "/" [] "/plugins/foo").1 (by decide)⟩,
   ⟨by decide, by decide,
    (C3_load_failures_amended envC3b "/" [] "/plugins/b").2.1 (by decide) (by decide)⟩,
   ⟨by decide,
    (C3_load_failures_amended envC3c "/" [] "/plugins/c").2.2.1 (by decide) (by decide)
      (by decide)⟩,
   ⟨by decide,
    (C3_load_failures_amended envC3d "/" [] "/plugins/d").2.2.2 (by decide) (by decide)
      (by decide) (by decide)⟩⟩

/-- C4: `add_file` with an empty (falsy) source path returns without writing
and without raising, and `add_file` with a non-empty source path missing
from disk fails with the missing-file error (`FileNotFoundError`, the
failure the spec names `MissingFileError`) in both binary and text mode,
writing nothing. -/
theorem C4_add_file_empty_or_missing :
    (∀ (fs : FS) (zd : String) (b : Bool) (st : ZipState),
      add_file fs "" zd b st = (st, none)) ∧
    (∀ (fs : FS) (p zd : String) (b : Bool) (st : ZipState),
      p ≠ "" → fs.lookup p = none → add_file fs p zd b st = (st, some .fileNotFound)) := by
  constructor
  · intro fs zd b st
    simp [add_file]
  · intro fs p zd b st hne hnone
    simp [add_file, hne, hnone]

/-- Concrete instantiation of the empty-path and missing-path cases. -/
theorem C4_add_file_empty_or_missing_witness :
    add_file ⟨[]⟩ "" "conf" true stEmpty = (stEmpty, none) ∧
    (("/nope.txt" : String) ≠ "" ∧ FS.lookup ⟨[]⟩ "/nope.txt" = none) ∧
    add_file ⟨[]⟩ "/nope.txt" "conf" false stEmpty = (stEmpty, some .fileNotFound) ∧
    add_file ⟨[]⟩ "/nope.txt" "conf" true stEmpty = (stEmpty, some .fileNotFound) :=
  ⟨C4_add_file_empty_or_missing.1 ⟨[]⟩ "conf" true stEmpty,
   ⟨by decide, by decide⟩,
   C4_add_file_empty_or_missing.2 ⟨[]⟩ "/nope.txt" "conf" false stEmpty (by decide) (by decide),
   C4_add_file_empty_or_missing.2 ⟨[]⟩ "/nope.txt" "conf" true stEmpty (by decide) (by decide)⟩

/-- C5: every file stored with text semantics — text-mode `add_file`, every
file mirrored by `add_dir`, every custom script — is stored as its text-mode
read (universal newlines) followed by the CR LF replace of the source
expression, and that stored content contains no CR LF pair whatever line
endings the source file used; binary-mode entries are copied verbatim with
no normalization. -/
theorem C5_text_normalization :
    (∀ c : String, strContainsCRLF (pyReplaceCRLF (pyTextRead c)) = false) ∧
    (∀ (fs : FS) (p zd : String) (st : ZipState) (c : String),
      p ≠ "" → fs.lookup p = some c →
      add_file fs p zd false st =
        (writestr st (osPathJoin zd (basename p))
          (.text (pyReplaceCRLF (pyTextRead c))), none) ∧
      strContainsCRLF (pyReplaceCRLF (pyTextRead c)) = false) ∧
    (∀ (fs : FS) (p zd : String) (st : ZipState) (c : String),
      p ≠ "" → fs.lookup p = some c →
      add_file fs p zd true st =
        (writestr st (osPathJoin zd (basename p)) (.binary c), none)) ∧
    (∀ (fs : FS) (path : String) (excl : List String) (st : ZipState) (e : String × Content),
      e ∈ (add_dir fs path excl st).entries →
      e ∈ st.entries ∨ ∃ t, e.2 = Content.text t ∧ strContainsCRLF t = false) ∧
    (∀ (fs : FS) (scripts : List CustomScript) (st : ZipState) (e : String × Content),
      e ∈ (addCustomScripts fs scripts st).1.entries →
      e ∈ st.entries ∨ (∃ t, e.2 = Content.text t ∧ strContainsCRLF t = false) ∨
        ∃ l, e.2 = Content.scriptsMeta l) := by
  have key : ∀ c : String, strContainsCRLF (pyReplaceCRLF (pyTextRead c)) = false :=
    fun c => storedText_no_crlf c.data
  refine ⟨key, ?_, add_file_binary, ?_, ?_⟩
  · intro fs p zd st c hne hc
    exact ⟨add_file_text fs p zd st c hne hc, key c⟩
  · intro fs path excl st e hmem
    simp only [add_dir, List.mem_append] at hmem
    rcases hmem with hmem | hmem
    · exact Or.inl hmem
    · obtain ⟨src, hsrc⟩ := mem_addDirNewEntries fs path excl e hmem
      exact Or.inr ⟨pyReplaceCRLF (pyTextRead src), hsrc, key src⟩
  · intro fs scripts st e hmem
    rcases mem_addCustomScriptsLoop scripts fs 0 [] st e hmem with h | h | h
    · exact Or.inl h
    · obtain ⟨src, hsrc⟩ := h
      exact Or.inr (Or.inl ⟨pyReplaceCRLF (pyTextRead src), hsrc, key src⟩)
    · exact Or.inr (Or.inr h)

/-- Concrete instantiation of each normalization conjunct, in particular on
a source mixing a bare CR with a CR LF pair, which the text-mode read
stores as LF LF. -/
theorem C5_text_normalization_witness :
    (strContainsCRLF (pyReplaceCRLF (pyTextRead "a\r\r\nb")) = false ∧
      pyReplaceCRLF (pyTextRead "a\r\r\nb") = "a\n\nb") ∧
    (("/in/script.sh" : String) ≠ "" ∧ fsC5.lookup "/in/script.sh" = some "a\r\r\nb" ∧
      add_file fsC5 "/in/script.sh" "d" false stEmpty =
        (writestr stEmpty (osPathJoin "d" (basename "/in/script.sh"))
          (.text (pyReplaceCRLF (pyTextRead "a\r\r\nb"))), none) ∧
      strContainsCRLF (pyReplaceCRLF (pyTextRead "a\r\r\nb")) = false) ∧
    (add_file fsC5w "/ns/f.sh" "jars" true stEmpty =
        (writestr stEmpty (osPathJoin "jars" (basename "/ns/f.sh"))
          (.binary "l1\r\nl2\r\n"), none)) ∧
    (("./f.sh", Content.text (pyReplaceCRLF (pyTextRead "l1\r\nl2\r\n"))) ∈
        (add_dir fsC5w "/ns" [] stEmpty).entries ∧
      (("./f.sh", Content.text (pyReplaceCRLF (pyTextRead "l1\r\nl2\r\n"))) ∈
          stEmpty.entries ∨
        ∃ t, (("./f.sh", Content.text (pyReplaceCRLF (pyTextRead "l1\r\nl2\r\n"))) :
          String × Content).2 = Content.text t ∧ strContainsCRLF t = false)) ∧
    (("custom-scripts/0_a.sh", Content.text (pyReplaceCRLF (pyTextRead "A\r\nA2\n"))) ∈
        (addCustomScripts fsC5w [⟨"/u/a.sh", "ALL"⟩] stEmpty).1.entries ∧
      (("custom-scripts/0_a.sh", Content.text (pyReplaceCRLF (pyTextRead "A\r\nA2\n"))) ∈
          stEmpty.entries ∨
        (∃ t, (("custom-scripts/0_a.sh",
            Content.text (pyReplaceCRLF (pyTextRead "A\r\nA2\n"))) :
          String × Content).2 = Content.text t ∧ strContainsCRLF t = false) ∨
        ∃ l, (("custom-scripts/0_a.sh",
            Content.text (pyReplaceCRLF (pyTextRead "A\r\nA2\n"))) :
          String × Content).2 = Content.scriptsMeta l)) :=
  ⟨⟨C5_text_normalization.1 "a\r\r\nb", by decide⟩,
   ⟨by decide, by decide,
    C5_text_normalization.2.1 fsC5 "/in/script.sh" "d" stEmpty "a\r\r\nb"
      (by decide) (by decide)⟩,
   C5_text_normalization.2.2.1 fsC5w "/ns/f.sh" "jars" stEmpty "l1\r\nl2\r\n"
     (by decide) (by decide),
   ⟨by decide,
    C5_text_normalization.2.2.2.1 fsC5w "/ns" [] stEmpty
      ("./f.sh", Content.text (pyReplaceCRLF (pyTextRead "l1\r\nl2\r\n"))) (by decide)⟩,
   ⟨by decide,
    C5_text_normalization.2.2.2.2 fsC5w [⟨"/u/a.sh", "ALL"⟩] stEmpty
      ("custom-scripts/0_a.sh", Content.text (pyReplaceCRLF (pyTextRead "A\r\nA2\n")))
      (by decide)⟩⟩

/-- C6: when every declared custom script exists, the stage stores the i-th
script (zero-based, declared order) under `custom-scripts/<i>_<basename>`
and writes a metadata record with exactly one `{script, runOn}` entry per
script in declared order; and when a declared script is missing from disk
(after any prefix of existing ones), the stage fails with
`InvalidCustomScriptError` naming the offending path. -/
theorem C6_custom_scripts_stage :
    (∀ (fs : FS) (scripts : List CustomScript) (st : ZipState),
      (∀ s ∈ scripts, (fs.lookup s.script).isSome = true) →
      addCustomScripts fs scripts st =
        ({ st with entries := st.entries ++ specCustomScriptEntries fs scripts ++
            [(osPathJoin "custom-scripts" "custom-scripts.yaml",
              .scriptsMeta (specScriptsMeta scripts))] }, none)) ∧
    (∀ (fs : FS) (pre : List CustomScript) (s : CustomScript) (post : List CustomScript)
      (st : ZipState),
      (∀ t ∈ pre, (fs.lookup t.script).isSome = true) →
      fs.lookup s.script = none →
      (addCustomScripts fs (pre ++ s :: post) st).2 = some (.invalidCustomScript s.script)) := by
  constructor
  · intro fs scripts st h
    have hloop := addCustomScriptsLoop_ok scripts fs 0 [] st h
    simpa [addCustomScripts, specCustomScriptEntries, specScriptsMeta] using hloop
  · intro fs pre s post st h hm
    have hloop := addCustomScriptsLoop_err pre s post fs 0 [] st h hm
    simpa [addCustomScripts] using hloop

/-- Concrete instantiation of the custom-scripts stage: two scripts renamed
`0_a.sh` and `1_b.sh` with metadata in declared order, and a missing second
script failing with its path. -/
theorem C6_custom_scripts_stage_witness :
    ((∀ s ∈ scriptsC6, (fsC6.lookup s.script).isSome = true) ∧
      addCustomScripts fsC6 scriptsC6 stEmpty =
        ({ stEmpty with entries := stEmpty.entries ++ specCustomScriptEntries fsC6 scriptsC6 ++
            [(osPathJoin "custom-scripts" "custom-scripts.yaml",
              .scriptsMeta (specScriptsMeta scriptsC6))] }, none)) ∧
    (addCustomScripts fsC6 scriptsC6 stEmpty).1.entries =
      [("custom-scripts/0_a.sh", .text "A\nA2\n"),
       ("custom-scripts/1_b.sh", .text "B\n"),
       ("custom-scripts/custom-scripts.yaml",
         .scriptsMeta [⟨"0_a.sh", "ALL"⟩, ⟨"1_b.sh", "MASTER"⟩])] ∧
    (fsC6.lookup "/u/missing.sh" = none ∧
      (addCustomScripts fsC6 scriptsC6bad stEmpty).2 =
        some (.invalidCustomScript "/u/missing.sh")) :=
  ⟨⟨by decide, C6_custom_scripts_stage.1 fsC6 scriptsC6 stEmpty (by decide)⟩,
   by decide,
   ⟨by decide,
    C6_custom_scripts_stage.2 fsC6 [⟨"/u/a.sh", "ALL"⟩] ⟨"/u/missing.sh", "ALL"⟩ [] stEmpty
      (by decide) (by decide)⟩⟩

/-- C7: when every declared plugin file exists, the plugins stage copies
every declared file of every plugin (in declared order) into its per-plugin
subdirectory, and the manifest written holds a `{name, execute, args,
runOn}` record for exactly the plugins whose definition declares a
non-empty execute entry, in declared order; the stage then raises
`UnboundLocalError` iff no plugin declared any file. -/
theorem C7_plugins_stage (fs : FS) (plugins : List PluginRef) (st : ZipState)
    (h : ∀ p ∈ plugins, ∀ f ∈ p.files,
      osPathJoin p.path f ≠ "" ∧ (fs.lookup (osPathJoin p.path f)).isSome = true) :
    addPlugins fs plugins st =
      ({ st with entries := st.entries ++ specPluginFileEntries fs plugins ++
          [(osPathJoin "plugins" "plugins-manifest.json",
            .manifestJson (specPluginManifest plugins))] },
        if plugins.any (fun p => !p.files.isEmpty) then none
        else some (.unboundLocal "zipf")) := by
  have hloop := addPluginsLoop_ok plugins fs [] false st h
  simp only [addPlugins, hloop]
  by_cases hb : (plugins.any fun p => !p.files.isEmpty) = true
  · simp [writestr, hb, List.append_assoc]
  · simp only [Bool.not_eq_true] at hb
    simp [writestr, hb, List.append_assoc]

/-- Concrete instantiation of the plugins stage: a plugin without an execute
entry contributes its file but no manifest record, a plugin with one
contributes both, in declared order. -/
theorem C7_plugins_stage_witness :
    ((∀ p ∈ [pluginC7a, pluginC7b], ∀ f ∈ p.files,
        osPathJoin p.path f ≠ "" ∧ (fsC7.lookup (osPathJoin p.path f)).isSome = true) ∧
      addPlugins fsC7 [pluginC7a, pluginC7b] stEmpty =
        ({ stEmpty with entries := stEmpty.entries ++
            specPluginFileEntries fsC7 [pluginC7a, pluginC7b] ++
            [(osPathJoin "plugins" "plugins-manifest.json",
              .manifestJson (specPluginManifest [pluginC7a, pluginC7b]))] },
          if [pluginC7a, pluginC7b].any (fun p => !p.files.isEmpty) then none
          else some (.unboundLocal "zipf"))) ∧
    (addPlugins fsC7 [pluginC7a, pluginC7b] stEmpty).1.entries =
      [("plugins/jupyter/a.conf", .text "c\n"), ("plugins/ganglia/run.sh", .text "r\n"),
       ("plugins/plugins-manifest.json",
         .manifestJson [⟨"ganglia", "ganglia/run.sh", ["arg1"], "ALL"⟩])] ∧
    (addPlugins fsC7 [pluginC7a, pluginC7b] stEmpty).2 = none :=
  ⟨⟨by decide, C7_plugins_stage fsC7 [pluginC7a, pluginC7b] stEmpty (by decide)⟩,
   by decide, by decide⟩

/-- C8: for every registry state, successfully loading a plugin whose
definition declares an already present name stores exactly the newly loaded
definition with its declared file names rewritten to paths rooted at the
new plugin directory; the lookup after the load returns precisely that
value, so nothing of the previous entry survives. -/
theorem C8_reload_replaces (env : ModuleEnv) (cwd : String) (st : Registry) (path : String)
    (d : PluginDefinition)
    (h1 : env.pathExists (pyAbspath cwd path) = true)
    (h2 : env.pathExists (osPathJoin (pyAbspath cwd path) "main.py") = true)
    (h3 : env.moduleHasDefinition (pyAbspath cwd path) = true)
    (h4 : env.definitionValue (pyAbspath cwd path) = .pluginDef d) :
    loadPlugin env cwd st path =
      .ok (registryInsert st d.name (expandDefinition (pyAbspath cwd path) d)) ∧
    registryLookup (registryInsert st d.name (expandDefinition (pyAbspath cwd path) d)) d.name =
      some { d with files := d.files.map fun f => osPathJoin (pyAbspath cwd path) f } := by
  constructor
  · simp [loadPlugin, h1, h2, h3, h4]
  · rw [registryLookup_insert]
    rfl

/-- Concrete instantiation of last-load-wins: reloading the name `ganglia`
over a registry holding an old definition leaves exactly the new expanded
definition, with no file of the old list surviving. -/
theorem C8_reload_replaces_witness :
    (envC8.pathExists (pyAbspath "/" "/plugins/ganglia") = true ∧
      envC8.pathExists (osPathJoin (pyAbspath "/" "/plugins/ganglia") "main.py") = true ∧
      envC8.moduleHasDefinition (pyAbspath "/" "/plugins/ganglia") = true ∧
      envC8.definitionValue (pyAbspath "/" "/plugins/ganglia") = .pluginDef defC8new) ∧
    (loadPlugin envC8 "/" regC8 "/plugins/ganglia" =
        .ok (registryInsert regC8 "ganglia" (expandDefinition (pyAbspath "/" "/plugins/ganglia") defC8new)) ∧
      registryLookup (registryInsert regC8 "ganglia"
          (expandDefinition (pyAbspath "/" "/plugins/ganglia") defC8new)) "ganglia" =
        some ⟨"ganglia", ["/plugins/ganglia/run.sh", "/plugins/ganglia/conf/g.conf"],
          "run.sh", "ALL"⟩) ∧
    registryInsert regC8 "ganglia" (expandDefinition (pyAbspath "/" "/plugins/ganglia") defC8new) =
      [("ganglia", ⟨"ganglia", ["/plugins/ganglia/run.sh", "/plugins/ganglia/conf/g.conf"],
        "run.sh", "ALL"⟩)] :=
  ⟨⟨by decide, by decide, by decide, by decide⟩,
   C8_reload_replaces envC8 "/" regC8 "/plugins/ganglia" defC8new
     (by decide) (by decide) (by decide) (by decide),
   by decide⟩

/-- C9: whenever the user configuration is present but the spark
configuration is absent, the user-configuration stage dereferences the SSH
keypair of `None` and fails with `AttributeError`, whatever the encryption
capability, registry of entries already written, or rest of the
configuration — so user credentials can only be embedded together with a
spark configuration. -/
theorem C9_user_conf_requires_spark (encrypt : EncryptFn) (cfg : ClusterConfiguration)
    (st : ZipState) (u : UserConf)
    (hu : cfg.userConfiguration = some u) (hs : cfg.sparkConfiguration = none) :
    addUserConf encrypt cfg st = (st, some (.attributeError "ssh_key_pair")) := by
  simp [addUserConf, hu, hs]

/-- Concrete instantiation: a configuration with credentials but no spark
section makes the user-configuration stage raise `AttributeError`. -/
theorem C9_user_conf_requires_spark_witness :
    (cfgC9.userConfiguration = some ⟨"alice", "hunter2", "ssh-rsa-key"⟩ ∧
      cfgC9.sparkConfiguration = none) ∧
    addUserConf encStub cfgC9 stEmpty = (stEmpty, some (.attributeError "ssh_key_pair")) :=
  ⟨⟨by decide, by decide⟩,
   C9_user_conf_requires_spark encStub cfgC9 stEmpty ⟨"alice", "hunter2", "ssh-rsa-key"⟩
     rfl rfl⟩

/-- C10: for every root path and every cluster configuration, the
constructed builder targets the single fixed destination
`<ROOT_PATH>/tmp/node-scripts.zip`; the destination is independent of the
configuration, the constructor having no destination parameter. -/
theorem C10_fixed_destination (rootPath : String) (cfg cfg' : ClusterConfiguration) :
    (NodeData.init rootPath cfg).zipPath = osPathJoin rootPath "tmp/node-scripts.zip" ∧
    (NodeData.init rootPath cfg).zipPath = (NodeData.init rootPath cfg').zipPath :=
  ⟨rfl, rfl⟩

end Aztk
